import Mathlib

/-!
Shallow embedding of the NetworkDashboard frontend's live-state logic.

Sources embedded:
* `src/frontend/src/app/page.tsx` (push/WebSocket variant): the
  `websocket.onmessage` payload transform (lines 44-89), the
  `onerror`/`onclose`/catch reconnect handlers (lines 91-106), the unmount
  cleanup (lines 112-121), and the initial `useState` values (lines 26-27).
* `src/frontend/src/app/page.tsx` (pull/fetch variant): the `fetchData`
  success and catch branches (lines 267-450 of the concatenated file) and
  the 30000 ms poll interval.
* `src/frontend/src/components/NetworkChart.tsx`: the chart state and the
  `useEffect` that appends one point per incoming snapshot and keeps the
  last 20 via `slice(-20)` (lines 18-44 and 83-101).
* `src/unnamed/part_001` (`NetworkTopology.tsx`): `calculateNodePositions`
  (lines 81-121).

JavaScript dynamic values are modelled by `JsVal` (number / string / NaN)
with JS truthiness, so that `x || d` defaulting, string-typed numeric
fields and NaN-producing arithmetic are representable.  Missing object
fields are `Option`s.  Wall-clock time is passed in explicitly (an epoch
millisecond `Int` and a preformatted label `String`).  SVG coordinates are
`JsNumber` (rational / ±infinity / NaN); the real-valued `Math.PI`,
`Math.cos`, `Math.sin` are abstracted as rational parameters since the
properties proved here depend only on NaN propagation.
-/

namespace NetworkDashboard

/-- A JavaScript dynamic value as it occurs in the parsed JSON payloads:
a (here integral) number, a string, or NaN. -/
inductive JsVal where
  | num (n : Int)
  | str (s : String)
  | nan
deriving DecidableEq, Repr

/-- JS truthiness: `0`, `""` and `NaN` are falsy. -/
def JsVal.truthy : JsVal → Bool
  | .num n => n != 0
  | .str s => s != ""
  | .nan => false

/-- `v || d` for a possibly-absent field `v`: `undefined`, `0`, `""` and
`NaN` fall back to the default. -/
def jsOr (v : Option JsVal) (d : JsVal) : JsVal :=
  match v with
  | some x => if x.truthy then x else d
  | none => d

/-- JS `ToNumber` restricted to the values representable here: numbers are
themselves, `NaN` is not a number, the empty string coerces to 0 and other
strings to their integer reading when they have one (non-numeric strings
give `none`, i.e. NaN). -/
def jsToNumber : JsVal → Option Int
  | .num n => some n
  | .nan => none
  | .str s => if s = "" then some 0 else s.toInt?

/-- JS `ToString` for the values representable here. -/
def jsValToString : JsVal → String
  | .num n => toString n
  | .str s => s
  | .nan => "NaN"

/-- JS `+`: string concatenation when either operand is a string,
otherwise numeric addition with NaN propagation. -/
def jsAdd (a b : JsVal) : JsVal :=
  match a, b with
  | .str _, _ => .str (jsValToString a ++ jsValToString b)
  | _, .str _ => .str (jsValToString a ++ jsValToString b)
  | .num x, .num y => .num (x + y)
  | _, _ => .nan

/-- JS `-`: both operands coerced to numbers, NaN propagates. -/
def jsSub (a b : JsVal) : JsVal :=
  match jsToNumber a, jsToNumber b with
  | some x, some y => .num (x - y)
  | _, _ => .nan

/-- JS `*`: both operands coerced to numbers, NaN propagates. -/
def jsMul (a b : JsVal) : JsVal :=
  match jsToNumber a, jsToNumber b with
  | some x, some y => .num (x * y)
  | _, _ => .nan

/-- `Math.max` on two values: NaN when either operand is NaN. -/
def jsMax (a b : JsVal) : JsVal :=
  match jsToNumber a, jsToNumber b with
  | some x, some y => .num (max x y)
  | _, _ => .nan

/-- The `bandwidth` object as it appears in a payload: every component may
be absent (and a present component may be any dynamic value). -/
structure RawBandwidth where
  upload : Option JsVal
  download : Option JsVal
  timestamp : Option String
deriving DecidableEq, Repr

/-- A device row `{ip, mac, hostname, status}`. -/
structure Device where
  ip : String
  mac : String
  hostname : String
  status : String
deriving DecidableEq, Repr

/-- An alert `{id, type, message, timestamp}`. -/
structure Alert where
  id : String
  type : String
  message : String
  timestamp : String
deriving DecidableEq, Repr

/-- The `metrics` object of a payload. -/
structure RawMetrics where
  bandwidth : Option RawBandwidth
  latency : Option JsVal
  packet_loss : Option JsVal
deriving DecidableEq, Repr

/-- The `protocols` enrichment payload; the default used on absence is
`{ top_protocols: [] }`, entries are opaque. -/
structure Protocols where
  top_protocols : List JsVal
deriving DecidableEq, Repr

/-- The `ports` enrichment payload; the default used on absence is
`{ top_source_ports: [], suspicious_activity: [] }`. -/
structure Ports where
  top_source_ports : List JsVal
  suspicious_activity : List JsVal
deriving DecidableEq, Repr

/-- A topology node (`NetworkNode` in `NetworkTopology.tsx`); the
presentation-only `device_info` block is omitted. `x`, `y` and
`connections` are optional in the source interface. -/
structure TopoNode where
  id : String
  type : String
  label : String
  ip : String
  mac : String
  connections : Option (List String)
  status : String
  security_level : String
  bandwidth_usage : Int
deriving DecidableEq, Repr

/-- A network segment of the topology payload. -/
structure Segment where
  name : String
  subnet : String
  device_count : Int
  security_level : String
deriving DecidableEq, Repr

/-- The `connection_quality` counters of the topology payload. -/
structure ConnQuality where
  excellent : Int
  good : Int
  poor : Int
  offline : Int
deriving DecidableEq, Repr

/-- The `topology` payload (`NetworkTopologyData`). -/
structure TopologyData where
  nodes : List TopoNode
  topology_type : String
  network_segments : List Segment
  connection_quality : ConnQuality
deriving DecidableEq, Repr

/-- The `anomalies` block of a payload (accessed with `?.` in the source). -/
structure RawAnomalies where
  anomalies : Option (List JsVal)
  total_anomalies : Option JsVal
  recommendations : Option (List JsVal)
deriving DecidableEq, Repr

/-- A successfully parsed WebSocket payload: every field the `onmessage`
handler reads, each possibly absent. -/
structure RawPayload where
  metrics : Option RawMetrics
  devices : Option (List Device)
  alerts : Option (List Alert)
  protocols : Option Protocols
  ports : Option Ports
  advanced_devices : Option (List JsVal)
  topology : Option TopologyData
  anomalies : Option RawAnomalies
deriving DecidableEq, Repr

/-- One entry of the generated `performance_trends` array. -/
structure TrendPoint where
  timestamp : Int
  bandwidth : JsVal
  latency : JsVal
  packet_loss : JsVal
  health_score : JsVal
deriving DecidableEq, Repr

/-- The `aiInsights` object constructed by the `onmessage` handler. -/
structure AIInsights where
  anomalies : List JsVal
  predictions : List JsVal
  traffic_patterns : List JsVal
  security_threats : List JsVal
  network_health_score : JsVal
  optimization_suggestions : List JsVal
  performance_trends : List TrendPoint
deriving DecidableEq, Repr

/-- The object passed to `setNetworkData` by the `onmessage` handler: the
snapshot as stored in the latest-snapshot slot. -/
structure NetworkData where
  bandwidth : RawBandwidth
  latency : JsVal
  packetLoss : JsVal
  devices : List Device
  alerts : List Alert
  protocols : Protocols
  ports : Ports
  advancedDevices : List JsVal
  topology : TopologyData
  aiInsights : AIInsights
deriving DecidableEq, Repr

/-- The default `topology` object used when the payload has none
(page.tsx lines 63-68). -/
def defaultTopology : TopologyData :=
  { nodes := []
    topology_type := "star"
    network_segments := []
    connection_quality := { excellent := 0, good := 0, poor := 0, offline := 0 } }

/-- The snapshot transform of `websocket.onmessage` (page.tsx lines
50-84): field accesses with `||` fallbacks on the parsed payload, plus the
derived `aiInsights` object.  `now` is `Date.now()` in epoch milliseconds
and `nowIso` the current time formatted as an ISO string. -/
def buildNetworkData (now : Int) (nowIso : String) (p : RawPayload) : NetworkData :=
  let metrics := p.metrics.getD { bandwidth := none, latency := none, packet_loss := none }
  let bandwidth := metrics.bandwidth.getD
    { upload := some (.num 0), download := some (.num 0), timestamp := some nowIso }
  { bandwidth := bandwidth
    latency := jsOr metrics.latency (.num 0)
    packetLoss := jsOr metrics.packet_loss (.num 0)
    devices := p.devices.getD []
    alerts := p.alerts.getD []
    protocols := p.protocols.getD { top_protocols := [] }
    ports := p.ports.getD { top_source_ports := [], suspicious_activity := [] }
    advancedDevices := p.advanced_devices.getD []
    topology := p.topology.getD defaultTopology
    aiInsights :=
      { anomalies := (p.anomalies.bind RawAnomalies.anomalies).getD []
        predictions := []
        traffic_patterns := []
        security_threats := []
        network_health_score :=
          jsSub (.num 100)
            (jsMul (jsOr (p.anomalies.bind RawAnomalies.total_anomalies) (.num 0)) (.num 10))
        optimization_suggestions := (p.anomalies.bind RawAnomalies.recommendations).getD []
        performance_trends :=
          (List.range 20).map fun i =>
            { timestamp := now - ((19 - i : Nat) : Int) * 60000
              bandwidth := jsAdd (jsOr bandwidth.download (.num 0)) (jsOr bandwidth.upload (.num 0))
              latency := jsOr metrics.latency (.num 0)
              packet_loss := jsOr metrics.packet_loss (.num 0)
              health_score := jsMax (.num 70) (jsSub (.num 100) (jsOr metrics.latency (.num 0))) } } }

/-- The Dashboard state read by the rendering layer: the latest-snapshot
slot (`useState<any>(null)`) and the connection indicator
(`useState(false)`). -/
structure DashState where
  networkData : Option NetworkData
  connected : Bool
deriving DecidableEq, Repr

/-- Initial Dashboard state (page.tsx lines 26-27). -/
def initialDashState : DashState := { networkData := none, connected := false }

/-- An incoming WebSocket message, after the `JSON.parse` attempt:
either unparseable (the parse threw) or a parsed payload. -/
inductive IncomingMessage where
  | unparseable
  | parsed (p : RawPayload)
deriving DecidableEq, Repr

/-- The `websocket.onmessage` handler (page.tsx lines 44-89): a parse
failure is caught and logged, leaving the state untouched; a parsed
payload is transformed and stored wholesale, and the connection indicator
is set to connected.  The surrounding try/catch makes the handler total:
it never throws. -/
def handleMessage (now : Int) (nowIso : String) (st : DashState)
    (msg : IncomingMessage) : DashState :=
  match msg with
  | .unparseable => st
  | .parsed p =>
      { st with networkData := some (buildNetworkData now nowIso p), connected := true }

/-- What the main content region renders (page.tsx lines 172-232):
the dashboard when a snapshot is present, else the connecting fallback. -/
inductive RenderView where
  | connectingFallback
  | dashboard (d : NetworkData)
deriving DecidableEq, Repr

/-- The `networkData ? ... : fallback` render guard (page.tsx line 172):
total, never dereferences a null snapshot. -/
def renderMain (st : DashState) : RenderView :=
  match st.networkData with
  | none => .connectingFallback
  | some d => .dashboard d

/-! ### Chart state (`NetworkChart.tsx`) -/

/-- The `chartData` state of `NetworkChart`: the labels array and the
three dataset data arrays.  Entries are `Option JsVal` because the effect
pushes `data.bandwidth.download` / `.upload` without defaulting (they may
be `undefined`); `data.latency` is always present after the page's
transform and is pushed wrapped in `some`. -/
structure ChartState where
  labels : List String
  downloadData : List (Option JsVal)
  uploadData : List (Option JsVal)
  latencyData : List (Option JsVal)
deriving DecidableEq, Repr

/-- Initial chart state: all four arrays empty (NetworkChart.tsx lines
18-44). -/
def chartInitialState : ChartState :=
  { labels := [], downloadData := [], uploadData := [], latencyData := [] }

/-- `slice(-20)`: the last `n` elements of a list (the whole list when it
is shorter). -/
def lastN (n : Nat) (l : List α) : List α := l.drop (l.length - n)

/-- One run of the `NetworkChart` effect (NetworkChart.tsx lines 83-101):
append the current time label and the snapshot's download, upload and
latency values, each array truncated to its last 20 entries. -/
def chartStep (st : ChartState) (input : String × NetworkData) : ChartState :=
  { labels := lastN 20 (st.labels ++ [input.1])
    downloadData := lastN 20 (st.downloadData ++ [input.2.bandwidth.download])
    uploadData := lastN 20 (st.uploadData ++ [input.2.bandwidth.upload])
    latencyData := lastN 20 (st.latencyData ++ [some input.2.latency]) }

/-! ### Transport / reconnect state machine (page.tsx lines 91-121 and
the pull variant) -/

/-- The fixed reconnect delay of the push transport:
`setTimeout(connectWebSocket, 5000)`. -/
def reconnectDelayMs : Nat := 5000

/-- The fixed poll interval of the pull variant:
`setInterval(fetchData, 30000)`. -/
def pollIntervalMs : Nat := 30000

/-- Connection-relevant state of the push (WebSocket) effect: the
indicator, the pending `reconnectTimeout` (with its delay), whether the
socket is open, and whether a close event is queued for asynchronous
delivery (the DOM dispatches the close event after `close()` returns). -/
structure PushConn where
  connected : Bool
  pendingReconnectDelay : Option Nat
  socketOpen : Bool
  closeEventPending : Bool
deriving DecidableEq, Repr

/-- `websocket.onopen` (page.tsx lines 39-42). -/
def onOpen (st : PushConn) : PushConn := { st with connected := true, socketOpen := true }

/-- `websocket.onerror` (page.tsx lines 91-94): only flips the indicator. -/
def onError (st : PushConn) : PushConn := { st with connected := false }

/-- `websocket.onclose` (page.tsx lines 96-100): flips the indicator and
unconditionally schedules a reconnect after the fixed 5000 ms delay. -/
def onClose (st : PushConn) : PushConn :=
  { st with connected := false, socketOpen := false,
            pendingReconnectDelay := some reconnectDelayMs }

/-- The `connectWebSocket` catch branch (page.tsx lines 103-106): on a
failed connection attempt, schedule another after the same fixed delay. -/
def connectFailure (st : PushConn) : PushConn :=
  { st with pendingReconnectDelay := some reconnectDelayMs }

/-- A transport failure as the WebSocket API delivers it: the error event
followed by the close event. -/
def transportFailure (st : PushConn) : PushConn := onClose (onError st)

/-- The unmount cleanup (page.tsx lines 113-120): clear the pending
reconnect timer if any, and `close()` the socket if one exists.  Closing
an open socket queues a close event for asynchronous delivery; the
`onclose` handler is NOT detached by the cleanup. -/
def cleanup (st : PushConn) : PushConn :=
  { st with pendingReconnectDelay := none,
            closeEventPending := st.closeEventPending || st.socketOpen,
            socketOpen := false }

/-- Delivery of a queued close event: runs the still-attached `onclose`
handler. -/
def deliverClose (st : PushConn) : PushConn :=
  if st.closeEventPending then onClose { st with closeEventPending := false } else st

/-- A steady connected push state: socket open, no timer pending. -/
def steadyConnected : PushConn :=
  { connected := true, pendingReconnectDelay := none,
    socketOpen := true, closeEventPending := false }

/-- Connection-relevant state of the pull (fetch) variant. -/
structure PullConn where
  connected : Bool
  dataPresent : Bool
deriving DecidableEq, Repr

/-- A successful `fetchData` cycle (pull variant, lines 314-326 of the
concatenated page source): stores the fetched data and sets connected. -/
def pullFetchSuccess (st : PullConn) : PullConn :=
  { st with connected := true, dataPresent := true }

/-- The `fetchData` catch branch (pull variant, lines 327-449): on any
fetch failure it installs the hard-coded fallback mock data and then calls
`setConnected(true)` — the indicator is set to connected, not
disconnected. -/
def pullFetchFailure (st : PullConn) : PullConn :=
  { st with connected := true, dataPresent := true }

/-! ### Topology layout (`calculateNodePositions`, NetworkTopology.tsx) -/

/-- A JS floating-point coordinate value: a finite (here rational) number,
a signed infinity, or NaN. -/
inductive JsNumber where
  | real (q : ℚ)
  | posInf
  | negInf
  | nan
deriving DecidableEq, Repr

/-- JS `/` on coordinates: `0/0` is NaN, nonzero over zero is a signed
infinity, infinities follow IEEE rules, NaN propagates. -/
def jsDivNum : JsNumber → JsNumber → JsNumber
  | .real a, .real b =>
      if b = 0 then (if a = 0 then .nan else if 0 < a then .posInf else .negInf)
      else .real (a / b)
  | .real _, .posInf => .real 0
  | .real _, .negInf => .real 0
  | .posInf, .real b => if 0 ≤ b then .posInf else .negInf
  | .negInf, .real b => if 0 ≤ b then .negInf else .posInf
  | _, _ => .nan

/-- JS `*` on coordinates: NaN propagates, infinity times zero is NaN. -/
def jsMulNum : JsNumber → JsNumber → JsNumber
  | .real a, .real b => .real (a * b)
  | .real a, .posInf => if a = 0 then .nan else if 0 < a then .posInf else .negInf
  | .real a, .negInf => if a = 0 then .nan else if 0 < a then .negInf else .posInf
  | .posInf, .real b => if b = 0 then .nan else if 0 < b then .posInf else .negInf
  | .negInf, .real b => if b = 0 then .nan else if 0 < b then .negInf else .posInf
  | .posInf, .posInf => .posInf
  | .negInf, .negInf => .posInf
  | .posInf, .negInf => .negInf
  | .negInf, .posInf => .negInf
  | _, _ => .nan

/-- JS `+` on coordinates: NaN propagates, opposite infinities give NaN. -/
def jsAddNum : JsNumber → JsNumber → JsNumber
  | .real a, .real b => .real (a + b)
  | .real _, .posInf => .posInf
  | .real _, .negInf => .negInf
  | .posInf, .real _ => .posInf
  | .negInf, .real _ => .negInf
  | .posInf, .posInf => .posInf
  | .negInf, .negInf => .negInf
  | _, _ => .nan

/-- `Math.cos` / `Math.sin` lifted to JS numbers: NaN on NaN and on
infinities; on finite values the abstract real-valued function `f`
(passed as a rational parameter, since only NaN propagation matters for
the properties proved here). -/
def jsTrig (f : ℚ → ℚ) : JsNumber → JsNumber
  | .real q => .real (f q)
  | _ => .nan

/-- A node as returned by `calculateNodePositions`: the input node with
`x`, `y` set and `connections` defaulted to an array. -/
structure PosNode where
  id : String
  type : String
  label : String
  ip : String
  mac : String
  connections : List String
  status : String
  security_level : String
  bandwidth_usage : Int
  x : JsNumber
  y : JsNumber
deriving DecidableEq, Repr

/-- `Math.ceil(Math.sqrt n)` for a natural `n`. -/
def natCeilSqrt (n : Nat) : Nat :=
  if Nat.sqrt n * Nat.sqrt n = n then Nat.sqrt n else Nat.sqrt n + 1

/-- `Math.ceil(a / b)` for naturals with `b > 0`. -/
def natCeilDiv (a b : Nat) : Nat := (a + b - 1) / b

/-- `calculateNodePositions` (NetworkTopology.tsx lines 81-121): assigns a
position to each node according to the topology type.  In the `star`
branch a non-center node at index `i` gets angle
`(2π·i) / (nodes.length - 1)` with NO guard on a zero denominator.
`piQ`, `cosF`, `sinF` abstract `Math.PI`, `Math.cos`, `Math.sin`. -/
def calculateNodePositions (piQ : ℚ) (cosF sinF : ℚ → ℚ)
    (topology_type : String) (nodes : List TopoNode) : List PosNode :=
  let width : ℚ := 800
  let height : ℚ := 600
  let centerX : ℚ := width / 2
  let centerY : ℚ := height / 2
  nodes.mapIdx fun index node =>
    let xy : JsNumber × JsNumber :=
      if topology_type = "star" then
        if node.type = "router" ∨ node.type = "gateway" then
          (.real centerX, .real centerY)
        else
          let angle := jsDivNum (.real (2 * piQ * (index : ℚ)))
            (.real ((nodes.length : ℚ) - 1))
          let radius : ℚ := 200
          (jsAddNum (.real centerX) (jsMulNum (.real radius) (jsTrig cosF angle)),
           jsAddNum (.real centerY) (jsMulNum (.real radius) (jsTrig sinF angle)))
      else if topology_type = "ring" then
        let angle := jsDivNum (.real (2 * piQ * (index : ℚ)))
          (.real ((nodes.length : ℚ)))
        let radius : ℚ := 180
        (jsAddNum (.real centerX) (jsMulNum (.real radius) (jsTrig cosF angle)),
         jsAddNum (.real centerY) (jsMulNum (.real radius) (jsTrig sinF angle)))
      else
        let cols := natCeilSqrt nodes.length
        let row := index / cols
        let col := index % cols
        (.real ((width / ((cols : ℚ) + 1)) * ((col : ℚ) + 1)),
         .real ((height / ((natCeilDiv nodes.length cols : ℚ) + 1)) * ((row : ℚ) + 1)))
    { id := node.id
      type := node.type
      label := node.label
      ip := node.ip
      mac := node.mac
      connections := node.connections.getD []
      status := node.status
      security_level := node.security_level
      bandwidth_usage := node.bandwidth_usage
      x := xy.1
      y := xy.2 }

/-! ### Window lemmas for the bounded chart series -/

theorem lastN_of_length_le {α : Type _} {n : Nat} {l : List α}
    (h : l.length ≤ n) : lastN n l = l := by
  simp [lastN, Nat.sub_eq_zero_of_le h]

theorem lastN_length_le {α : Type _} (n : Nat) (l : List α) :
    (lastN n l).length ≤ n := by
  simp only [lastN, List.length_drop]
  omega

theorem lastN_length {α : Type _} (n : Nat) (l : List α) :
    (lastN n l).length = min l.length n := by
  simp only [lastN, List.length_drop]
  omega

/-- Re-windowing an already windowed list before appending gives the same
result as windowing the full history once. -/
theorem lastN_lastN_append {α : Type _} (n : Nat) (l t : List α) :
    lastN n (lastN n l ++ t) = lastN n (l ++ t) := by
  simp only [lastN, List.drop_append_eq_append_drop, List.drop_drop,
    List.length_append, List.length_drop]
  congr 2 <;> omega

/-- Folding append-then-window steps equals windowing the mapped history
once, provided the accumulator is already within the window. -/
theorem foldl_push_window {α β : Type _} (f : α → β) (inputs : List α) :
    ∀ acc : List β, acc.length ≤ 20 →
      List.foldl (fun a x => lastN 20 (a ++ [f x])) acc inputs =
        lastN 20 (acc ++ inputs.map f) := by
  induction inputs with
  | nil => intro acc h; simp [lastN_of_length_le h]
  | cons x xs ih =>
      intro acc h
      simp only [List.foldl_cons, List.map_cons]
      rw [ih _ (lastN_length_le 20 _), lastN_lastN_append]
      simp [List.append_assoc]

/-- `foldl chartStep` acts componentwise as four append-then-window
folds. -/
theorem foldl_chartStep (inputs : List (String × NetworkData)) :
    ∀ st : ChartState,
      List.foldl chartStep st inputs =
        { labels := List.foldl (fun a x => lastN 20 (a ++ [x.1])) st.labels inputs
          downloadData := List.foldl
            (fun a x => lastN 20 (a ++ [x.2.bandwidth.download])) st.downloadData inputs
          uploadData := List.foldl
            (fun a x => lastN 20 (a ++ [x.2.bandwidth.upload])) st.uploadData inputs
          latencyData := List.foldl
            (fun a x => lastN 20 (a ++ [some x.2.latency])) st.latencyData inputs } := by
  induction inputs with
  | nil => intro st; rfl
  | cons x xs ih => intro st; simp only [List.foldl_cons, ih, chartStep]

/-- The chart state after a whole history of updates, in closed form:
each array is the 20-window of the corresponding derived value sequence. -/
theorem chart_run_closed_form (inputs : List (String × NetworkData)) :
    List.foldl chartStep chartInitialState inputs =
      { labels := lastN 20 (inputs.map Prod.fst)
        downloadData := lastN 20 (inputs.map fun i => i.2.bandwidth.download)
        uploadData := lastN 20 (inputs.map fun i => i.2.bandwidth.upload)
        latencyData := lastN 20 (inputs.map fun i => some i.2.latency) } := by
  rw [foldl_chartStep]
  simp only [chartInitialState]
  rw [foldl_push_window _ _ [] (by simp), foldl_push_window _ _ [] (by simp),
    foldl_push_window _ _ [] (by simp), foldl_push_window _ _ [] (by simp)]
  simp

/-! ### Concrete inputs used by counterexamples and witnesses -/

/-- The all-absent payload `{}` (parses, every field missing). -/
def emptyPayload : RawPayload :=
  { metrics := none, devices := none, alerts := none, protocols := none,
    ports := none, advanced_devices := none, topology := none, anomalies := none }

/-- 21 chart updates with distinct time labels, all carrying the snapshot
derived from the empty payload. -/
def demoInputs : List (String × NetworkData) :=
  (List.range 21).map fun i => (toString i, buildNetworkData 0 "t" emptyPayload)

/-- A payload that parses but is malformed: `bandwidth` missing and
`latency` a string. -/
def c2MalformedPayload : RawPayload :=
  { metrics := some { bandwidth := none, latency := some (.str "high"), packet_loss := none },
    devices := none, alerts := none, protocols := none, ports := none,
    advanced_devices := none, topology := none, anomalies := none }

/-- A payload whose `bandwidth` object is present but missing its
`download` component. -/
def c7Payload : RawPayload :=
  { metrics := some
      { bandwidth := some { upload := some (.num 5), download := none, timestamp := none },
        latency := none, packet_loss := none },
    devices := none, alerts := none, protocols := none, ports := none,
    advanced_devices := none, topology := none, anomalies := none }

/-- A payload with `metrics` present but every metric field missing. -/
def c7WitnessPayload : RawPayload :=
  { metrics := some { bandwidth := none, latency := none, packet_loss := none },
    devices := none, alerts := none, protocols := none, ports := none,
    advanced_devices := none, topology := none, anomalies := none }

/-- A pull-variant state whose indicator is connected. -/
def pullConnectedState : PullConn := { connected := true, dataPresent := true }

/-- A single non-router, non-gateway topology node. -/
def c10Node : TopoNode :=
  { id := "n1", type := "laptop", label := "Laptop-001", ip := "192.168.1.100",
    mac := "00:1B:44:11:3A:B7", connections := none, status := "online",
    security_level := "high", bandwidth_usage := 45 }

/-! ### Claim theorems -/

/-- C1: after `n` chart updates from the empty chart state, every series
array is exactly the derived values of the last `min n 20` snapshots in
arrival order (so the length is `min n 20`), and after 21 updates the
head of the series is the point derived from the 2nd snapshot — the 1st
snapshot's point has been evicted FIFO. -/
theorem c1_bounded_series_fifo (inputs : List (String × NetworkData)) :
    (List.foldl chartStep chartInitialState inputs).labels
        = lastN 20 (inputs.map Prod.fst)
    ∧ (List.foldl chartStep chartInitialState inputs).downloadData
        = lastN 20 (inputs.map fun i => i.2.bandwidth.download)
    ∧ (List.foldl chartStep chartInitialState inputs).uploadData
        = lastN 20 (inputs.map fun i => i.2.bandwidth.upload)
    ∧ (List.foldl chartStep chartInitialState inputs).latencyData
        = lastN 20 (inputs.map fun i => some i.2.latency)
    ∧ (List.foldl chartStep chartInitialState inputs).labels.length
        = min inputs.length 20
    ∧ (inputs.length = 21 →
        (List.foldl chartStep chartInitialState inputs).labels.head?
          = (inputs.map Prod.fst)[1]?) := by
  rw [chart_run_closed_form]
  refine ⟨rfl, rfl, rfl, rfl, ?_, ?_⟩
  · rw [lastN_length, List.length_map]
  · intro h21
    have hl : (inputs.map Prod.fst).length = 21 := by rw [List.length_map, h21]
    simp [lastN, hl]

/-- Witness for C1: a concrete run of 21 updates, discharging the
`length = 21` hypothesis. -/
theorem c1_bounded_series_fifo_witness :
    demoInputs.length = 21
    ∧ (List.foldl chartStep chartInitialState demoInputs).labels.head?
        = (demoInputs.map Prod.fst)[1]? :=
  ⟨by simp [demoInputs], (c1_bounded_series_fifo demoInputs).2.2.2.2.2 (by simp [demoInputs])⟩

/-- C2 counterexample: a payload that parses but has `latency` as a
string and `bandwidth` missing DOES change the latest-snapshot slot and
DOES transition the connection state (the `onmessage` handler accepts it
with defaults and calls `setConnected(true)`), contradicting the claim
that such a payload leaves both untouched. -/
theorem c2_counterexample_malformed_payload_updates_state :
    (handleMessage 0 "12:00:00" initialDashState
        (.parsed c2MalformedPayload)).networkData ≠ initialDashState.networkData
    ∧ (handleMessage 0 "12:00:00" initialDashState
        (.parsed c2MalformedPayload)).connected ≠ initialDashState.connected := by
  constructor <;> simp [handleMessage, initialDashState]

/-- C2 amended: only payloads that FAIL TO PARSE are dropped without
throwing, leaving the latest snapshot, the series input and the
connection state untouched; a payload that parses — even with `latency` a
string or `bandwidth` missing — is accepted with defaults: it replaces
the latest-snapshot slot and sets the connection state to connected.
(The handler is a total function: the surrounding try/catch means no
payload makes it throw.) -/
theorem c2_amended_parse_failures_dropped :
    (∀ (now : Int) (iso : String) (st : DashState),
        handleMessage now iso st .unparseable = st)
    ∧ (∀ (now : Int) (iso : String) (st : DashState) (p : RawPayload),
        handleMessage now iso st (.parsed p)
          = { networkData := some (buildNetworkData now iso p), connected := true }) :=
  ⟨fun _ _ _ => rfl, fun _ _ _ _ => rfl⟩

/-- C3: for every accepted (parsed) payload, the latest-snapshot slot
afterwards holds exactly the snapshot built from that payload — wholesale
replacement, with the result independent of whatever state (previous
snapshot) was there before: never a merge with previous state. -/
theorem c3_latest_wholesale_replacement (now : Int) (iso : String)
    (st : DashState) (p : RawPayload) :
    (handleMessage now iso st (.parsed p)).networkData
        = some (buildNetworkData now iso p)
    ∧ ∀ st' : DashState,
        (handleMessage now iso st (.parsed p)).networkData
          = (handleMessage now iso st' (.parsed p)).networkData :=
  ⟨rfl, fun _ => rfl⟩

/-- C4 counterexample: in the pull variant, a failed poll cycle leaves
the connection indicator CONNECTED — the catch branch installs fallback
mock data and calls `setConnected(true)` — contradicting the claim that a
poll failure transitions connected to disconnected. -/
theorem c4_counterexample_poll_failure_stays_connected :
    (pullFetchFailure pullConnectedState).connected = true
    ∧ (pullFetchFailure { connected := false, dataPresent := false }).connected = true :=
  ⟨rfl, rfl⟩

/-- C4 amended: in the push variant a transport error or closure does
transition the indicator to disconnected (from every state), but in the
pull variant a failed poll cycle sets the indicator to connected (with
fallback mock data), never to disconnected. -/
theorem c4_amended_transport_failure_disconnects :
    (∀ st : PushConn, (onError st).connected = false)
    ∧ (∀ st : PushConn, (onClose st).connected = false)
    ∧ (∀ st : PushConn, (transportFailure st).connected = false)
    ∧ (∀ st : PullConn, (pullFetchFailure st).connected = true) :=
  ⟨fun _ => rfl, fun _ => rfl, fun _ => rfl, fun _ => rfl⟩

/-- C5 (code bug evidence): the unmount cleanup does clear the pending
reconnect timer and close the socket, but it leaves the `onclose` handler
attached; the close event queued by `close()` is delivered after the
cleanup returns, runs `onclose`, flips the indicator (a state-change
notification after teardown) and schedules a fresh 5000 ms reconnect
timer — so a stale reconnect timer CAN fire after teardown, contrary to
the claim. -/
theorem c5_stale_timer_after_teardown :
    (cleanup steadyConnected).pendingReconnectDelay = none
    ∧ (cleanup steadyConnected).socketOpen = false
    ∧ (deliverClose (cleanup steadyConnected)).pendingReconnectDelay
        = some reconnectDelayMs
    ∧ (deliverClose (cleanup steadyConnected)).connected = false :=
  ⟨rfl, rfl, rfl, rfl⟩

/-- C6: whenever the push transport closes (including the error-then-close
sequence of a transport failure) or a connection attempt throws, a
reconnect is scheduled after the fixed 5000 ms delay, from EVERY state
(no maximum retry count) and with a delay independent of the state (no
backoff, no jitter); the pull variant polls on a fixed 30000 ms
interval. -/
theorem c6_fixed_delay_unconditional_retry :
    reconnectDelayMs = 5000
    ∧ pollIntervalMs = 30000
    ∧ (∀ st : PushConn, (onClose st).pendingReconnectDelay = some reconnectDelayMs)
    ∧ (∀ st : PushConn, (connectFailure st).pendingReconnectDelay = some reconnectDelayMs)
    ∧ (∀ st : PushConn, (transportFailure st).connected = false
        ∧ (transportFailure st).pendingReconnectDelay = some reconnectDelayMs)
    ∧ (∀ st st' : PushConn,
        (onClose st).pendingReconnectDelay = (onClose st').pendingReconnectDelay) :=
  ⟨rfl, rfl, fun _ => rfl, fun _ => rfl, fun _ => ⟨rfl, rfl⟩, fun _ _ => rfl⟩

/-- C7 counterexample: a payload whose `bandwidth` object is present but
missing its `download` component is stored with `download` still missing
(`undefined`), NOT defaulted to 0 — the `|| {upload: 0, download: 0, ...}`
fallback applies only when the whole `bandwidth` object is absent.  This
contradicts the claim that every missing numeric field, bandwidth
components included, defaults to 0 in the resulting state. -/
theorem c7_counterexample_bandwidth_component_not_defaulted :
    (buildNetworkData 0 "12:00:00" c7Payload).bandwidth.download = none
    ∧ (buildNetworkData 0 "12:00:00" c7Payload).bandwidth.download
        ≠ some (JsVal.num 0) :=
  ⟨rfl, by simp [buildNetworkData, c7Payload]⟩

/-- C7 amended: the handler never throws (it is a total function), and
defaulting happens at the granularity of whole fields: a missing
`latency` or `packet_loss` defaults to 0, a missing `bandwidth` OBJECT
defaults to `{upload: 0, download: 0, timestamp: now}`, and missing
`devices`/`alerts` collections default to empty — but a present
`bandwidth` object is stored as-is, so a component missing inside it is
left missing rather than defaulted to 0. -/
theorem c7_amended_field_level_defaults (now : Int) (iso : String)
    (p : RawPayload) (m : RawMetrics) (hm : p.metrics = some m) :
    (m.latency = none → (buildNetworkData now iso p).latency = .num 0)
    ∧ (m.packet_loss = none → (buildNetworkData now iso p).packetLoss = .num 0)
    ∧ (m.bandwidth = none → (buildNetworkData now iso p).bandwidth
        = { upload := some (.num 0), download := some (.num 0), timestamp := some iso })
    ∧ (∀ bw : RawBandwidth, m.bandwidth = some bw →
        (buildNetworkData now iso p).bandwidth = bw)
    ∧ (p.devices = none → (buildNetworkData now iso p).devices = [])
    ∧ (p.alerts = none → (buildNetworkData now iso p).alerts = []) := by
  refine ⟨?_, ?_, ?_, ?_, ?_, ?_⟩
  · intro h; simp [buildNetworkData, hm, h, jsOr]
  · intro h; simp [buildNetworkData, hm, h, jsOr]
  · intro h; simp [buildNetworkData, hm, h]
  · intro bw h; simp [buildNetworkData, hm, h]
  · intro h; simp [buildNetworkData, h]
  · intro h; simp [buildNetworkData, h]

/-- Witness for C7 (amended): the defaults evaluated on a concrete
payload with `metrics` present but every metric field missing. -/
theorem c7_amended_field_level_defaults_witness :
    c7WitnessPayload.metrics
        = some { bandwidth := none, latency := none, packet_loss := none }
    ∧ (buildNetworkData 0 "t" c7WitnessPayload).latency = .num 0 :=
  ⟨rfl, (c7_amended_field_level_defaults 0 "t" c7WitnessPayload
      { bandwidth := none, latency := none, packet_loss := none } rfl).1 rfl⟩

/-- C8: before any snapshot has arrived the latest-snapshot slot is null
(`useState(null)`) and the render path takes the guarded fallback branch
instead of dereferencing it (and, being a total function, does not
throw). -/
theorem c8_initial_latest_null :
    initialDashState.networkData = none
    ∧ renderMain initialDashState = RenderView.connectingFallback :=
  ⟨rfl, rfl⟩

/-- C9: the chart state keeps its four arrays in lockstep — after every
sequence of updates from the initial all-empty state, the labels array
and the three dataset arrays all have the same length. -/
theorem c9_lockstep_lengths (inputs : List (String × NetworkData)) :
    (List.foldl chartStep chartInitialState inputs).labels.length
        = (List.foldl chartStep chartInitialState inputs).downloadData.length
    ∧ (List.foldl chartStep chartInitialState inputs).labels.length
        = (List.foldl chartStep chartInitialState inputs).uploadData.length
    ∧ (List.foldl chartStep chartInitialState inputs).labels.length
        = (List.foldl chartStep chartInitialState inputs).latencyData.length := by
  rw [chart_run_closed_form]
  refine ⟨?_, ?_, ?_⟩ <;> simp [lastN_length]

/-- C10: star topology, a single node whose type is neither `router` nor
`gateway`: the angle computation divides `2π·0` by `nodes.length - 1 = 0`
with no guard, yielding NaN, which propagates through cos/sin and the
arithmetic — `calculateNodePositions` returns that node with NaN `x` and
`y` coordinates (for any values of π, cos and sin). -/
theorem c10_star_single_node_nan (piQ : ℚ) (cosF sinF : ℚ → ℚ)
    (node : TopoNode) (h1 : node.type ≠ "router") (h2 : node.type ≠ "gateway") :
    (calculateNodePositions piQ cosF sinF "star" [node]).map (fun pn => (pn.x, pn.y))
      = [(JsNumber.nan, JsNumber.nan)] := by
  simp [calculateNodePositions, h1, h2, List.mapIdx_cons, List.mapIdx_nil,
    jsDivNum, jsTrig, jsMulNum, jsAddNum]

/-- Witness for C10: the NaN coordinates at a concrete non-router node
and concrete stand-ins for π/cos/sin. -/
theorem c10_star_single_node_nan_witness :
    c10Node.type ≠ "router" ∧ c10Node.type ≠ "gateway"
    ∧ (calculateNodePositions 3 (fun q => q) (fun q => q) "star" [c10Node]).map
        (fun pn => (pn.x, pn.y)) = [(JsNumber.nan, JsNumber.nan)] :=
  ⟨by decide, by decide,
    c10_star_single_node_nan 3 (fun q => q) (fun q => q) c10Node
      (by decide) (by decide)⟩

end NetworkDashboard
